import Mathlib

/-!
Shallow embedding of the Real-Time Audio Session Manager of
`src/services/geminiService.ts` (the live speaking session subsystem).

Modelling conventions:
* JavaScript numbers that hold audio samples, clock times and durations are
  modelled as `ℚ`.  The only arithmetic the source performs on them
  (multiplication by the power of two 32768, comparison, `Math.max`, addition
  of durations, division by the sample rate) is exact in binary floating
  point for the magnitudes involved, so `ℚ` is a faithful carrier.
* The base64 transport layer (`btoa`/`atob` in `decode`/`createBlob`) is an
  external platform bijection between byte sequences and text; messages are
  modelled as carrying the byte sequences directly.
* Callback invocations are modelled as an emitted list of `CallbackEvent`s,
  in invocation order.  A thrown JavaScript exception inside a handler is
  modelled as `thrown : Option String`; statements executed before the throw
  keep their effects, statements after it are skipped, exactly as in the
  source's async handlers.
-/

namespace GeminiService

/-- JavaScript truncation toward zero (the integer step of the abstract
`ToInt16` operation applied by an `Int16Array` element store). -/
def jsTrunc (q : ℚ) : ℤ := if 0 ≤ q then ⌊q⌋ else ⌈q⌉

/-- Wrap an integer to the signed 16-bit range, as `ToInt16` does:
reduce modulo 2^16, then map the representatives in [2^15, 2^16) down
by 2^16. -/
def toInt16Wrap (x : ℤ) : ℤ :=
  if x % 65536 < 32768 then x % 65536 else x % 65536 - 65536

/-- The value stored by `int16[i] = data[i] * 32768` in `createBlob`
(geminiService.ts line 100): scale by 32768, truncate toward zero, wrap to
signed 16 bits. -/
def quantize (s : ℚ) : ℤ := toInt16Wrap (jsTrunc (s * 32768))

/-- The two little-endian bytes of a signed 16-bit value, as laid out by
`new Uint8Array(int16.buffer)` (geminiService.ts line 103). -/
def int16LE (t : ℤ) : List ℕ :=
  [(t % 65536).toNat % 256, (t % 65536).toNat / 256]

/-- The byte payload of `createBlob(data)` (geminiService.ts lines 96-106):
each sample quantized to a signed 16-bit integer and packed little-endian. -/
def createBlobBytes (data : List ℚ) : List ℕ :=
  (data.map quantize).flatMap int16LE

/-- The MIME tag attached by `createBlob`. -/
def createBlobMime : String := "audio/pcm;rate=16000"

/-- Reading one signed 16-bit sample from a little-endian byte pair, as the
`Int16Array` view over the byte buffer does (geminiService.ts line 83). -/
def toInt16 (lo hi : ℕ) : ℤ :=
  if lo + 256 * hi < 32768 then (lo + 256 * hi : ℤ) else (lo + 256 * hi : ℤ) - 65536

/-- The full sequence of signed 16-bit samples of a byte sequence, read as
`new Int16Array(data.buffer)` reads it.  A trailing odd byte yields no
sample (the constructor case that throws is handled by the caller). -/
def leBytesToInt16s : List ℕ → List ℤ
  | lo :: hi :: rest => toInt16 lo hi :: leBytesToInt16s rest
  | _ => []

/-- `decodeAudioData(data, ctx, sampleRate, numChannels)`
(geminiService.ts lines 77-94), observable content only.

`new Int16Array(data.buffer)` throws a `RangeError` when the byte length is
odd; otherwise the samples are read little-endian, the frame count is the
floor of `totalSamples / numChannels` (the fractional JS quotient is
truncated by `createBuffer`, and channel-data writes past the buffer length
are dropped), and each channel `channel` receives
`dataInt16[i * numChannels + channel] / 32768` at frame `i`. -/
def decodeAudioData (data : List ℕ) (numChannels : ℕ) :
    Except String (List (List ℚ)) :=
  if data.length % 2 = 0 then
    let dataInt16 := leBytesToInt16s data
    let frameCount := dataInt16.length / numChannels
    Except.ok ((List.range numChannels).map fun channel =>
      (List.range frameCount).map fun i =>
        ((dataInt16.getD (i * numChannels + channel) 0 : ℚ)) / 32768)
  else
    Except.error "RangeError: byte length of Int16Array should be a multiple of 2"

/-- One scheduled `AudioBufferSourceNode`: its `start` argument and its
buffer's duration. -/
structure ScheduledSource where
  startTime : ℚ
  duration : ℚ
deriving DecidableEq, Repr

/-- The caller-facing callbacks of `LiveSessionCallbacks`
(geminiService.ts lines 190-197), as emitted events. -/
inductive CallbackEvent where
  | onTranscriptionUpdate (inputTranscript outputTranscript : String)
  | onTurnComplete (fullInputTranscript : String)
  | onAIStartSpeaking
  | onAIStopSpeaking
  | onError (message : String)
  | onClose
deriving DecidableEq, Repr

/-- Whether an event is an `onTurnComplete` invocation (any payload). -/
def isOnTurnComplete : CallbackEvent → Bool
  | CallbackEvent.onTurnComplete _ => true
  | _ => false

/-- The mutable state captured by the `onmessage` closure of
`startLiveSpeakingSession`: the playback cursor `nextStartTime`, the
in-flight source set (kept in insertion order), the sources on which
`stop()` has been called, and the two per-turn transcription accumulators. -/
structure SessionState where
  nextStartTime : ℚ
  sources : List ScheduledSource
  stoppedSources : List ScheduledSource
  currentInputTranscription : String
  currentOutputTranscription : String
deriving DecidableEq, Repr

/-- The state right after a successful `startLiveSpeakingSession` setup
(geminiService.ts lines 202-212). -/
def initSessionState : SessionState :=
  { nextStartTime := 0
    sources := []
    stoppedSources := []
    currentInputTranscription := ""
    currentOutputTranscription := "" }

/-- The fields of a `LiveServerMessage.serverContent` that the `onmessage`
handler inspects.  `audioData` is the (base64-decoded) byte payload of
`modelTurn.parts[0].inlineData.data`. -/
structure LiveServerMessage where
  inputTranscription : Option String := none
  outputTranscription : Option String := none
  audioData : Option (List ℕ) := none
  turnComplete : Bool := false
  interrupted : Bool := false
deriving DecidableEq, Repr

/-- Result of one `onmessage` invocation: the updated closure state, the
callback invocations in order, and the exception (if any) that aborted the
handler. -/
structure StepResult where
  state : SessionState
  events : List CallbackEvent
  thrown : Option String
deriving DecidableEq, Repr

/-- The tail of the `onmessage` handler after the audio branch
(geminiService.ts lines 280-319): output transcription, turn complete,
interruption.

The turn-complete branch (lines 286-308) is a copy of the UI component's
handler left in the service.  Its first statement already reads the
undefined identifier `fullInputTranscript` (line 287), so in the service's
scope it throws a `ReferenceError` before doing anything else: it never
invokes `callbacks.onTurnComplete`, never touches the accumulators, and the
interruption branch below it is skipped for that message. -/
def onmessageTail (st : SessionState) (evs : List CallbackEvent)
    (message : LiveServerMessage) : StepResult :=
  let (st, evs) :=
    match message.outputTranscription with
    | some t =>
        ({ st with currentOutputTranscription := st.currentOutputTranscription ++ t },
         evs ++ [CallbackEvent.onTranscriptionUpdate st.currentInputTranscription
            (st.currentOutputTranscription ++ t)])
    | none => (st, evs)
  if message.turnComplete then
    { state := st, events := evs
      thrown := some "ReferenceError: fullInputTranscript is not defined" }
  else if message.interrupted then
    { state :=
        { st with
          sources := []
          stoppedSources := st.stoppedSources ++ st.sources
          nextStartTime := 0 }
      events := evs ++ [CallbackEvent.onAIStopSpeaking]
      thrown := none }
  else
    { state := st, events := evs, thrown := none }

/-- The `onmessage` handler of the live session
(geminiService.ts lines 246-320).  `currentTime` is the value of
`outputAudioContext.currentTime` at this invocation.

Branch order as in the source: input transcription, output audio
(`onAIStartSpeaking` first, then `nextStartTime = max(nextStartTime,
currentTime)`, then the decode — whose failure aborts the handler with the
prior effects kept — then `source.start(nextStartTime)` and the advance of
`nextStartTime` by the buffer duration), output transcription, turn
complete, interruption. -/
def onmessage (st : SessionState) (message : LiveServerMessage)
    (currentTime : ℚ) : StepResult :=
  let (st, evs) :=
    match message.inputTranscription with
    | some t =>
        ({ st with currentInputTranscription := st.currentInputTranscription ++ t },
         [CallbackEvent.onTranscriptionUpdate (st.currentInputTranscription ++ t)
            st.currentOutputTranscription])
    | none => (st, [])
  match message.audioData with
  | some bytes =>
      let evs := evs ++ [CallbackEvent.onAIStartSpeaking]
      let st := { st with nextStartTime := max st.nextStartTime currentTime }
      match decodeAudioData bytes 1 with
      | Except.error e => { state := st, events := evs, thrown := some e }
      | Except.ok channels =>
          let duration : ℚ := ((channels.getD 0 []).length : ℚ) / 24000
          let source : ScheduledSource :=
            { startTime := st.nextStartTime, duration := duration }
          onmessageTail
            { st with
              nextStartTime := st.nextStartTime + duration
              sources := st.sources ++ [source] }
            evs message
  | none => onmessageTail st evs message

/-- The `ended` listener registered on each source
(geminiService.ts lines 269-274): remove the source from the in-flight set
and invoke `onAIStopSpeaking` when the set becomes empty. -/
def onSourceEnded (st : SessionState) (source : ScheduledSource) :
    SessionState × List CallbackEvent :=
  let sources := st.sources.erase source
  ({ st with sources := sources },
   if sources.isEmpty then [CallbackEvent.onAIStopSpeaking] else [])

/-- Result of a sequence of `onmessage` invocations: final state, all
callback invocations in order, and the exceptions thrown (one handler's
exception does not prevent later messages from being handled). -/
structure RunResult where
  state : SessionState
  events : List CallbackEvent
  errors : List String
deriving DecidableEq, Repr

/-- Handle a list of messages in order, each with its observed
`outputAudioContext.currentTime`. -/
def runMessages (st : SessionState) :
    List (LiveServerMessage × ℚ) → RunResult
  | [] => { state := st, events := [], errors := [] }
  | (m, t) :: rest =>
      let r := onmessage st m t
      let rr := runMessages r.state rest
      { state := rr.state
        events := r.events ++ rr.events
        errors := r.thrown.toList ++ rr.errors }

/-- The resource-handle state of one live session, as seen by the `close`
closure returned from `startLiveSpeakingSession`
(geminiService.ts lines 344-369).

`streamRef`, `scriptRef` and `mediaSrcRef` record whether the captured
variables `stream`, `scriptProcessor` and `mediaStreamSource` are non-null
(the truthiness the closure's `if` guards test); `tracks` is the number of
tracks of the media stream; `inFlight` is the size of the in-flight source
set.  The `...Calls` counters record how many times each underlying release
operation has been invoked, so that re-released resources are observable. -/
structure LifecycleState where
  streamRef : Bool
  tracks : ℕ
  scriptRef : Bool
  mediaSrcRef : Bool
  onaudioprocessSet : Bool
  inFlight : ℕ
  sessionCloseCalls : ℕ
  trackStopCalls : ℕ
  inputCtxCloseCalls : ℕ
  outputCtxCloseCalls : ℕ
  scriptDisconnectCalls : ℕ
  mediaSrcDisconnectCalls : ℕ
  sourceStopCalls : ℕ
deriving DecidableEq, Repr

/-- The `close` closure returned by `startLiveSpeakingSession`
(geminiService.ts lines 345-368), step by step:

1. `session.close()` — unconditionally;
2. `if (stream) stream.getTracks().forEach(track => track.stop())`;
3. `if (inputAudioContext) inputAudioContext.close()` — the context
   variables are always assigned before the closure exists, so both guards
   are truthy on every call;
4. `if (outputAudioContext) outputAudioContext.close()`;
5. `if (scriptProcessor) { scriptProcessor.disconnect();
   scriptProcessor.onaudioprocess = null; }`;
6. `if (mediaStreamSource) mediaStreamSource.disconnect()`;
7. stop and delete every in-flight source.

No captured variable is set to null: `streamRef`, `scriptRef` and
`mediaSrcRef` keep their values, so a second call repeats steps 1-6. -/
def closeSession (h : LifecycleState) : LifecycleState :=
  { h with
    sessionCloseCalls := h.sessionCloseCalls + 1
    trackStopCalls := h.trackStopCalls + (if h.streamRef then h.tracks else 0)
    inputCtxCloseCalls := h.inputCtxCloseCalls + 1
    outputCtxCloseCalls := h.outputCtxCloseCalls + 1
    scriptDisconnectCalls := h.scriptDisconnectCalls + (if h.scriptRef then 1 else 0)
    onaudioprocessSet := if h.scriptRef then false else h.onaudioprocessSet
    mediaSrcDisconnectCalls :=
      h.mediaSrcDisconnectCalls + (if h.mediaSrcRef then 1 else 0)
    sourceStopCalls := h.sourceStopCalls + h.inFlight
    inFlight := 0 }

/-- The `onerror` handler of the live session
(geminiService.ts lines 321-325).  Its body is a `console.error`, one
`callbacks.onError` invocation with the descriptive message, and one
`callbacks.onClose()` invocation — the caller's notification callback, not
the returned `close` closure.  It performs no release operation, so the
lifecycle state is returned unchanged. -/
def onerror (h : LifecycleState) (message : String) :
    LifecycleState × List CallbackEvent :=
  (h,
   [CallbackEvent.onError ("Live session error: " ++
      (if message = "" then "Unknown error" else message)),
    CallbackEvent.onClose])

/-- The setup steps of `startLiveSpeakingSession` that can fail, in the
order the source performs them (geminiService.ts lines 214-342):
`navigator.mediaDevices.getUserMedia`, `new AudioContext({sampleRate:
16000})`, `new AudioContext({sampleRate: 24000})`, and the
`ai.live.connect` / `await sessionPromise` pair. -/
inductive SetupStep where
  | getUserMedia
  | newInputAudioContext
  | newOutputAudioContext
  | liveConnect
deriving DecidableEq, Repr

/-- Outcome of running `startLiveSpeakingSession` up to either success or
the first failing step.  The `...Acquired`/`...Created`/`connected` flags
record which resources had been acquired when control left the `try` block;
the `...Released`/`...Closed` flags record whether the catch path released
them before the error propagated. -/
structure SetupResult where
  streamAcquired : Bool
  inputCtxCreated : Bool
  outputCtxCreated : Bool
  connected : Bool
  streamReleased : Bool
  inputCtxClosed : Bool
  outputCtxClosed : Bool
  events : List CallbackEvent
  thrown : Option String
deriving DecidableEq, Repr

/-- The setup control flow of `startLiveSpeakingSession`
(geminiService.ts lines 214-375) for a given failing step (`none` = every
step succeeds).  The `catch` block (lines 370-375) invokes
`callbacks.onError` with a descriptive message, then `callbacks.onClose()`,
then rethrows the error; it contains no release call, so every resource
acquired before the failing step is still held when the error propagates. -/
def startLiveSpeakingSession (failAt : Option SetupStep) (errMsg : String) :
    SetupResult :=
  let catchEvents : List CallbackEvent :=
    [CallbackEvent.onError ("Failed to start speaking session: " ++
       (if errMsg = "" then "Microphone access denied or unknown error." else errMsg)),
     CallbackEvent.onClose]
  match failAt with
  | some SetupStep.getUserMedia =>
      { streamAcquired := false, inputCtxCreated := false
        outputCtxCreated := false, connected := false
        streamReleased := false, inputCtxClosed := false
        outputCtxClosed := false, events := catchEvents, thrown := some errMsg }
  | some SetupStep.newInputAudioContext =>
      { streamAcquired := true, inputCtxCreated := false
        outputCtxCreated := false, connected := false
        streamReleased := false, inputCtxClosed := false
        outputCtxClosed := false, events := catchEvents, thrown := some errMsg }
  | some SetupStep.newOutputAudioContext =>
      { streamAcquired := true, inputCtxCreated := true
        outputCtxCreated := false, connected := false
        streamReleased := false, inputCtxClosed := false
        outputCtxClosed := false, events := catchEvents, thrown := some errMsg }
  | some SetupStep.liveConnect =>
      { streamAcquired := true, inputCtxCreated := true
        outputCtxCreated := true, connected := false
        streamReleased := false, inputCtxClosed := false
        outputCtxClosed := false, events := catchEvents, thrown := some errMsg }
  | none =>
      { streamAcquired := true, inputCtxCreated := true
        outputCtxCreated := true, connected := true
        streamReleased := false, inputCtxClosed := false
        outputCtxClosed := false, events := [], thrown := none }

/-! ### Codec lemmas -/

theorem leBytesToInt16s_cons (a b : ℕ) (rest : List ℕ) :
    leBytesToInt16s (a :: b :: rest) = toInt16 a b :: leBytesToInt16s rest := rfl

theorem toInt16Wrap_mem (x : ℤ) :
    -32768 ≤ toInt16Wrap x ∧ toInt16Wrap x < 32768 := by
  unfold toInt16Wrap
  have h1 : 0 ≤ x % 65536 := Int.emod_nonneg x (by norm_num)
  have h2 : x % 65536 < 65536 := Int.emod_lt_of_pos x (by norm_num)
  split <;> omega

theorem toInt16Wrap_eq_self {t : ℤ} (h1 : -32768 ≤ t) (h2 : t < 32768) :
    toInt16Wrap t = t := by
  unfold toInt16Wrap
  have h3 : t % 65536 = if 0 ≤ t then t else t + 65536 := by
    rcases le_or_lt 0 t with h | h
    · simp [h]; omega
    · simp [not_le.mpr h]; omega
  split <;> split at h3 <;> omega

theorem quantize_mem (s : ℚ) : -32768 ≤ quantize s ∧ quantize s < 32768 :=
  toInt16Wrap_mem _

/-- Packing a signed 16-bit value little-endian and reading it back through
the `Int16Array` view is the identity. -/
theorem leBytesToInt16s_int16LE {t : ℤ} (h1 : -32768 ≤ t) (h2 : t < 32768)
    (rest : List ℕ) :
    leBytesToInt16s (int16LE t ++ rest) = t :: leBytesToInt16s rest := by
  have hm0 : 0 ≤ t % 65536 := Int.emod_nonneg t (by norm_num)
  have hm1 : t % 65536 < 65536 := Int.emod_lt_of_pos t (by norm_num)
  have hu : ((t % 65536).toNat : ℤ) = t % 65536 := Int.toNat_of_nonneg hm0
  have hval : t % 65536 = if 0 ≤ t then t else t + 65536 := by
    rcases le_or_lt 0 t with h | h
    · simp [h]; omega
    · simp [not_le.mpr h]; omega
  rw [int16LE]
  show leBytesToInt16s (_ :: _ :: rest) = _
  rw [leBytesToInt16s_cons]
  congr 1
  unfold toInt16
  have hmod : (t % 65536).toNat % 256 + 256 * ((t % 65536).toNat / 256)
      = (t % 65536).toNat := by omega
  split at hval <;> split <;> omega

/-- Reading the byte payload of `createBlob` back through the `Int16Array`
view recovers exactly the quantized samples. -/
theorem leBytesToInt16s_createBlobBytes (samples : List ℚ) :
    leBytesToInt16s (createBlobBytes samples) = samples.map quantize := by
  induction samples with
  | nil => rfl
  | cons s rest ih =>
      have h := quantize_mem s
      calc leBytesToInt16s (createBlobBytes (s :: rest))
          = leBytesToInt16s (int16LE (quantize s) ++ createBlobBytes rest) := by
            simp [createBlobBytes]
        _ = quantize s :: leBytesToInt16s (createBlobBytes rest) :=
            leBytesToInt16s_int16LE h.1 h.2 _
        _ = quantize s :: rest.map quantize := by rw [ih]
        _ = (s :: rest).map quantize := rfl

theorem createBlobBytes_length (samples : List ℚ) :
    (createBlobBytes samples).length = 2 * samples.length := by
  induction samples with
  | nil => rfl
  | cons s rest ih =>
      simp [createBlobBytes, int16LE] at ih ⊢
      omega

theorem leBytesToInt16s_length :
    ∀ bs : List ℕ, (leBytesToInt16s bs).length = bs.length / 2
  | [] => rfl
  | [_] => by simp [leBytesToInt16s]
  | _ :: _ :: rest => by
      rw [leBytesToInt16s_cons]
      simp [leBytesToInt16s_length rest]
      omega

theorem leBytesToInt16s_getD :
    ∀ (bs : List ℕ) (i : ℕ), i < bs.length / 2 →
      (leBytesToInt16s bs).getD i 0 = toInt16 (bs.getD (2 * i) 0) (bs.getD (2 * i + 1) 0)
  | [], i, h => by simp at h
  | [_], i, h => by exact absurd h (by simp)
  | a :: b :: rest, 0, _ => rfl
  | a :: b :: rest, i + 1, h => by
      rw [leBytesToInt16s_cons]
      have hr : i < rest.length / 2 := by simp at h; omega
      have := leBytesToInt16s_getD rest i hr
      simpa [List.getD_cons_succ, Nat.mul_add] using this

/-- Mapping an index-based read over the index range of a list is just a
map over the list. -/
theorem range_map_getD {α β : Type} (d : α) (f : α → β) :
    ∀ l : List α, (List.range l.length).map (fun i => f (l.getD i d)) = l.map f
  | [] => rfl
  | a :: rest => by
      rw [List.length_cons, List.range_succ_eq_map]
      simp only [List.map_cons, List.getD_cons_zero, List.map_map]
      congr 1
      have := range_map_getD d f rest
      calc (List.range rest.length).map ((fun i => f ((a :: rest).getD i d)) ∘ Nat.succ)
          = (List.range rest.length).map (fun i => f (rest.getD i d)) := by
            apply List.map_congr_left
            intro i _
            simp
        _ = rest.map f := range_map_getD d f rest

/-- `decodeAudioData` for mono audio with an even byte count: one channel,
holding every 16-bit little-endian sample divided by 32768. -/
theorem decodeAudioData_mono (bytes : List ℕ) (h : bytes.length % 2 = 0) :
    decodeAudioData bytes 1 =
      Except.ok [(leBytesToInt16s bytes).map (fun t : ℤ => (t : ℚ) / 32768)] := by
  unfold decodeAudioData
  rw [if_pos h]
  have hr : List.range 1 = [0] := rfl
  rw [hr]
  simp only [List.map_cons, List.map_nil, Nat.div_one, mul_one, add_zero]
  exact congrArg (fun l => Except.ok [l])
    (range_map_getD 0 (fun t : ℤ => (t : ℚ) / 32768) (leBytesToInt16s bytes))

/-! ### Handler lemmas -/

/-- Effect of `onmessage` on a message carrying only an audio fragment with
an even number of payload bytes: `onAIStartSpeaking` is invoked, the source
is scheduled at `max nextStartTime currentTime`, and `nextStartTime`
advances by the buffer duration `frameCount / 24000`. -/
theorem onmessage_audio (st : SessionState) (bytes : List ℕ) (now : ℚ)
    (h : bytes.length % 2 = 0) :
    onmessage st { audioData := some bytes } now =
      { state :=
          { st with
            nextStartTime := max st.nextStartTime now + ((bytes.length / 2 : ℕ) : ℚ) / 24000
            sources := st.sources ++
              [{ startTime := max st.nextStartTime now
                 duration := ((bytes.length / 2 : ℕ) : ℚ) / 24000 }] }
        events := [CallbackEvent.onAIStartSpeaking]
        thrown := none } := by
  have hd := decodeAudioData_mono bytes h
  simp only [onmessage, hd, onmessageTail, List.getD_cons_zero, List.length_map,
    leBytesToInt16s_length, List.nil_append]
  simp

/-- Effect of `onmessage` on a message carrying only the interruption flag:
every in-flight source is stopped, the set is cleared, `nextStartTime` is
reset to 0, and `onAIStopSpeaking` is invoked. -/
theorem onmessage_interrupted (st : SessionState) (now : ℚ) :
    onmessage st { interrupted := true } now =
      { state :=
          { st with
            sources := []
            stoppedSources := st.stoppedSources ++ st.sources
            nextStartTime := 0 }
        events := [CallbackEvent.onAIStopSpeaking]
        thrown := none } := by
  simp [onmessage, onmessageTail]

/-! ### Quantization error bound -/

theorem jsTrunc_mem {x : ℚ} (h1 : -32768 ≤ x) (h2 : x < 32768) :
    -32768 ≤ jsTrunc x ∧ jsTrunc x < 32768 := by
  unfold jsTrunc
  split
  · constructor
    · have : (0 : ℤ) ≤ ⌊x⌋ := Int.floor_nonneg.mpr (by assumption)
      omega
    · exact_mod_cast Int.floor_lt.mpr (by exact_mod_cast h2)
  · constructor
    · have ha : ((-32768 : ℤ) : ℚ) ≤ x := by exact_mod_cast h1
      have := (Int.le_ceil x).trans' ha
      exact_mod_cast Int.cast_le.mp (by exact_mod_cast this)
    · have hx0 : x ≤ ((0 : ℤ) : ℚ) := by
        push_cast
        exact le_of_not_le (by assumption)
      have : ⌈x⌉ ≤ 0 := Int.ceil_le.mpr hx0
      omega

theorem jsTrunc_abs_sub_le (x : ℚ) : |x - (jsTrunc x : ℚ)| ≤ 1 := by
  unfold jsTrunc
  split
  · have hle : (⌊x⌋ : ℚ) ≤ x := Int.floor_le x
    have hgt : x - 1 < (⌊x⌋ : ℚ) := Int.sub_one_lt_floor x
    rw [abs_le]
    constructor <;> linarith
  · have hle : x ≤ (⌈x⌉ : ℚ) := Int.le_ceil x
    have hlt : (⌈x⌉ : ℚ) < x + 1 := Int.ceil_lt_add_one x
    rw [abs_le]
    constructor <;> linarith

/-- One quantization round trip: for a sample strictly below full scale the
recovered value is within one quantization step of the original. -/
theorem quantize_close {s : ℚ} (h1 : -1 ≤ s) (h2 : s < 1) :
    |s - (quantize s : ℚ) / 32768| ≤ 1 / 32768 := by
  have hx1 : -32768 ≤ s * 32768 := by linarith
  have hx2 : s * 32768 < 32768 := by linarith
  have ht := jsTrunc_mem hx1 hx2
  have hq : quantize s = jsTrunc (s * 32768) :=
    toInt16Wrap_eq_self ht.1 ht.2
  have hb := jsTrunc_abs_sub_le (s * 32768)
  rw [hq]
  have h32 : (0 : ℚ) < 32768 := by norm_num
  have key : |s - (jsTrunc (s * 32768) : ℚ) / 32768|
      = |s * 32768 - (jsTrunc (s * 32768) : ℚ)| / 32768 := by
    rw [← abs_of_pos h32, ← abs_div]
    congr 1
    field_simp
  rw [key]
  exact (div_le_div_iff_of_pos_right h32).mpr hb

/-- Mapping a function over the index range of `List.range n` and reading
back one position below the bound. -/
theorem getD_range_map {β : Type} (f : ℕ → β) (n i : ℕ) (d : β) (h : i < n) :
    ((List.range n).map f).getD i d = f i := by
  rw [List.getD_eq_getElem _ _ (by simpa)]
  simp

/-! ### Claims -/

/-- Claim C1 (code_bug evidence): after input fragments "Hel" and "lo "
and a turn-complete signal, the handler invokes `onTurnComplete` zero
times (not exactly once with "Hello "), the student accumulator still
holds "Hello " (not reset to the empty string), and the turn-complete
branch aborted with a `ReferenceError` on the undefined identifier
`fullInputTranscript`. -/
theorem turnComplete_branch_dead :
    (runMessages initSessionState
        [({ inputTranscription := some "Hel" }, 0),
         ({ inputTranscription := some "lo " }, 0),
         ({ turnComplete := true }, 0)]).events.countP isOnTurnComplete = 0 ∧
    (runMessages initSessionState
        [({ inputTranscription := some "Hel" }, 0),
         ({ inputTranscription := some "lo " }, 0),
         ({ turnComplete := true }, 0)]).state.currentInputTranscription = "Hello " ∧
    (runMessages initSessionState
        [({ inputTranscription := some "Hel" }, 0),
         ({ inputTranscription := some "lo " }, 0),
         ({ turnComplete := true }, 0)]).errors
      = ["ReferenceError: fullInputTranscript is not defined"] := by
  refine ⟨by decide, by decide, by decide⟩

/-- Claim C2 (code_bug evidence): on a remote error event the session
invokes `onError` once with a descriptive message and then only the
caller's `onClose` notification callback; the lifecycle state is
returned unchanged — in particular the microphone track is not stopped
(`trackStopCalls` is still 0 and `streamRef` still set) and the two
in-flight sources are not stopped — whereas an actual `close()` on the
same state would have stopped the track (`trackStopCalls = 1`). -/
theorem onerror_no_teardown :
    onerror
        { streamRef := true, tracks := 1, scriptRef := true, mediaSrcRef := true
          onaudioprocessSet := true, inFlight := 2, sessionCloseCalls := 0
          trackStopCalls := 0, inputCtxCloseCalls := 0, outputCtxCloseCalls := 0
          scriptDisconnectCalls := 0, mediaSrcDisconnectCalls := 0, sourceStopCalls := 0 }
        "network failure"
      = ({ streamRef := true, tracks := 1, scriptRef := true, mediaSrcRef := true
           onaudioprocessSet := true, inFlight := 2, sessionCloseCalls := 0
           trackStopCalls := 0, inputCtxCloseCalls := 0, outputCtxCloseCalls := 0
           scriptDisconnectCalls := 0, mediaSrcDisconnectCalls := 0, sourceStopCalls := 0 },
         [CallbackEvent.onError "Live session error: network failure",
          CallbackEvent.onClose]) ∧
    (closeSession
        { streamRef := true, tracks := 1, scriptRef := true, mediaSrcRef := true
          onaudioprocessSet := true, inFlight := 2, sessionCloseCalls := 0
          trackStopCalls := 0, inputCtxCloseCalls := 0, outputCtxCloseCalls := 0
          scriptDisconnectCalls := 0, mediaSrcDisconnectCalls := 0
          sourceStopCalls := 0 }).trackStopCalls = 1 := by
  refine ⟨by decide, by decide⟩

/-- Claim C3 (code_bug evidence): when the remote connection
establishment fails after the media stream and both audio contexts were
acquired, the error propagates (`thrown` is set) with the stream still
acquired and not released and both contexts created and not closed — the
partial resources leak, contrary to the release-before-propagation
requirement. -/
theorem startLiveSpeakingSession_connect_failure_leaks :
    startLiveSpeakingSession (some SetupStep.liveConnect) "WebSocket handshake failed"
      = { streamAcquired := true, inputCtxCreated := true, outputCtxCreated := true
          connected := false, streamReleased := false, inputCtxClosed := false
          outputCtxClosed := false
          events := [CallbackEvent.onError
              "Failed to start speaking session: WebSocket handshake failed",
            CallbackEvent.onClose]
          thrown := some "WebSocket handshake failed" } := by
  decide

/-- Claim C4 counterexample: on a live handle, after a completed first
`close()` the stream handle is still set (not nulled out), and a second
`close()` performs the track stop and the input-context close a second
time — resource release is performed twice, not exactly once, so the
repeated call is not a no-op. -/
theorem closeSession_twice_counterexample :
    (closeSession
        { streamRef := true, tracks := 1, scriptRef := true, mediaSrcRef := true
          onaudioprocessSet := true, inFlight := 2, sessionCloseCalls := 0
          trackStopCalls := 0, inputCtxCloseCalls := 0, outputCtxCloseCalls := 0
          scriptDisconnectCalls := 0, mediaSrcDisconnectCalls := 0
          sourceStopCalls := 0 }).streamRef = true ∧
    (closeSession (closeSession
        { streamRef := true, tracks := 1, scriptRef := true, mediaSrcRef := true
          onaudioprocessSet := true, inFlight := 2, sessionCloseCalls := 0
          trackStopCalls := 0, inputCtxCloseCalls := 0, outputCtxCloseCalls := 0
          scriptDisconnectCalls := 0, mediaSrcDisconnectCalls := 0
          sourceStopCalls := 0 })).trackStopCalls = 2 ∧
    (closeSession (closeSession
        { streamRef := true, tracks := 1, scriptRef := true, mediaSrcRef := true
          onaudioprocessSet := true, inFlight := 2, sessionCloseCalls := 0
          trackStopCalls := 0, inputCtxCloseCalls := 0, outputCtxCloseCalls := 0
          scriptDisconnectCalls := 0, mediaSrcDisconnectCalls := 0
          sourceStopCalls := 0 })).inputCtxCloseCalls = 2 := by
  refine ⟨by decide, by decide, by decide⟩

/-- Claim C4 as amended: a second `close()` on the same handle does not
re-stop the in-flight sources (the set was emptied by the first call, so
the sources are stopped exactly once), but because no retained handle is
nulled out it re-executes the remote-session close, the microphone track
stops and both audio-context closes — the repeated call is not a
no-op. -/
theorem closeSession_second_call_rereleases (h : LifecycleState)
    (hs : h.streamRef = true) :
    (closeSession h).streamRef = true ∧
    (closeSession (closeSession h)).sessionCloseCalls = h.sessionCloseCalls + 2 ∧
    (closeSession (closeSession h)).trackStopCalls = h.trackStopCalls + 2 * h.tracks ∧
    (closeSession (closeSession h)).inputCtxCloseCalls = h.inputCtxCloseCalls + 2 ∧
    (closeSession (closeSession h)).outputCtxCloseCalls = h.outputCtxCloseCalls + 2 ∧
    (closeSession (closeSession h)).sourceStopCalls = h.sourceStopCalls + h.inFlight ∧
    (closeSession (closeSession h)).inFlight = 0 := by
  simp [closeSession, hs]
  omega

/-- Witness for `closeSession_second_call_rereleases` at a concrete live
handle with one track and two in-flight sources. -/
theorem closeSession_second_call_rereleases_witness :
    ({ streamRef := true, tracks := 1, scriptRef := true, mediaSrcRef := true
       onaudioprocessSet := true, inFlight := 2, sessionCloseCalls := 0
       trackStopCalls := 0, inputCtxCloseCalls := 0, outputCtxCloseCalls := 0
       scriptDisconnectCalls := 0, mediaSrcDisconnectCalls := 0
       sourceStopCalls := 0 } : LifecycleState).streamRef = true ∧
    ((closeSession
        { streamRef := true, tracks := 1, scriptRef := true, mediaSrcRef := true
          onaudioprocessSet := true, inFlight := 2, sessionCloseCalls := 0
          trackStopCalls := 0, inputCtxCloseCalls := 0, outputCtxCloseCalls := 0
          scriptDisconnectCalls := 0, mediaSrcDisconnectCalls := 0
          sourceStopCalls := 0 }).streamRef = true ∧
     (closeSession (closeSession
        { streamRef := true, tracks := 1, scriptRef := true, mediaSrcRef := true
          onaudioprocessSet := true, inFlight := 2, sessionCloseCalls := 0
          trackStopCalls := 0, inputCtxCloseCalls := 0, outputCtxCloseCalls := 0
          scriptDisconnectCalls := 0, mediaSrcDisconnectCalls := 0
          sourceStopCalls := 0 })).sessionCloseCalls = 0 + 2 ∧
     (closeSession (closeSession
        { streamRef := true, tracks := 1, scriptRef := true, mediaSrcRef := true
          onaudioprocessSet := true, inFlight := 2, sessionCloseCalls := 0
          trackStopCalls := 0, inputCtxCloseCalls := 0, outputCtxCloseCalls := 0
          scriptDisconnectCalls := 0, mediaSrcDisconnectCalls := 0
          sourceStopCalls := 0 })).trackStopCalls = 0 + 2 * 1 ∧
     (closeSession (closeSession
        { streamRef := true, tracks := 1, scriptRef := true, mediaSrcRef := true
          onaudioprocessSet := true, inFlight := 2, sessionCloseCalls := 0
          trackStopCalls := 0, inputCtxCloseCalls := 0, outputCtxCloseCalls := 0
          scriptDisconnectCalls := 0, mediaSrcDisconnectCalls := 0
          sourceStopCalls := 0 })).inputCtxCloseCalls = 0 + 2 ∧
     (closeSession (closeSession
        { streamRef := true, tracks := 1, scriptRef := true, mediaSrcRef := true
          onaudioprocessSet := true, inFlight := 2, sessionCloseCalls := 0
          trackStopCalls := 0, inputCtxCloseCalls := 0, outputCtxCloseCalls := 0
          scriptDisconnectCalls := 0, mediaSrcDisconnectCalls := 0
          sourceStopCalls := 0 })).outputCtxCloseCalls = 0 + 2 ∧
     (closeSession (closeSession
        { streamRef := true, tracks := 1, scriptRef := true, mediaSrcRef := true
          onaudioprocessSet := true, inFlight := 2, sessionCloseCalls := 0
          trackStopCalls := 0, inputCtxCloseCalls := 0, outputCtxCloseCalls := 0
          scriptDisconnectCalls := 0, mediaSrcDisconnectCalls := 0
          sourceStopCalls := 0 })).sourceStopCalls = 0 + 2 ∧
     (closeSession (closeSession
        { streamRef := true, tracks := 1, scriptRef := true, mediaSrcRef := true
          onaudioprocessSet := true, inFlight := 2, sessionCloseCalls := 0
          trackStopCalls := 0, inputCtxCloseCalls := 0, outputCtxCloseCalls := 0
          scriptDisconnectCalls := 0, mediaSrcDisconnectCalls := 0
          sourceStopCalls := 0 })).inFlight = 0) :=
  ⟨by decide,
   closeSession_second_call_rereleases _ (by decide)⟩

/-- Claim C5 counterexample: for the sample value 1.0 (included in the
claimed range [-1, 1]) the scale-by-32768 step produces 32768, which the
16-bit store wraps to -32768, so the round trip decodes to -1.0 — an
absolute error of 2, far above the claimed 1/32768 bound. -/
theorem codec_roundtrip_at_one_counterexample :
    decodeAudioData (createBlobBytes [(1 : ℚ)]) 1 = Except.ok [[-1]] ∧
    ¬ (|(1 : ℚ) - (-1)| ≤ 1 / 32768) := by
  constructor
  · have h2 : jsTrunc ((1 : ℚ) * 32768) = 32768 := by
      have h1 : (1 : ℚ) * 32768 = ((32768 : ℤ) : ℚ) := by norm_num
      rw [h1]
      unfold jsTrunc
      rw [if_pos (by positivity), Int.floor_intCast]
    have hq : quantize 1 = -32768 := by
      unfold quantize
      rw [h2]
      decide
    have hb : createBlobBytes [(1 : ℚ)] = [0, 128] := by
      simp [createBlobBytes, hq, int16LE]
    rw [hb]
    have hl : leBytesToInt16s [0, 128] = [-32768] := by decide
    simp [decodeAudioData, hl, List.range_succ]
  · norm_num

/-- Claim C5 as amended: for every finite sample sequence with each value
in [-1, 1) — strictly below full scale — decoding the encoded blob
(mono, matching rate) yields a sequence of the same length whose k-th
value differs from the original k-th value by at most 1/32768 in
absolute value. -/
theorem codec_roundtrip (samples : List ℚ)
    (hs : ∀ s ∈ samples, -1 ≤ s ∧ s < 1) :
    ∃ out, decodeAudioData (createBlobBytes samples) 1 = Except.ok [out] ∧
      out.length = samples.length ∧
      ∀ k, k < samples.length → |samples.getD k 0 - out.getD k 0| ≤ 1 / 32768 := by
  have heven : (createBlobBytes samples).length % 2 = 0 := by
    rw [createBlobBytes_length]; omega
  refine ⟨samples.map (fun s => (quantize s : ℚ) / 32768), ?_, by simp, ?_⟩
  · rw [decodeAudioData_mono _ heven, leBytesToInt16s_createBlobBytes, List.map_map]
    rfl
  · intro k hk
    have hk2 : k < (samples.map (fun s => (quantize s : ℚ) / 32768)).length := by simpa
    rw [List.getD_eq_getElem _ _ hk2, List.getElem_map, List.getD_eq_getElem _ _ hk]
    exact quantize_close (hs _ (List.getElem_mem _)).1 (hs _ (List.getElem_mem _)).2

/-- Witness for `codec_roundtrip` at the one-sample sequence [1/2]. -/
theorem codec_roundtrip_witness :
    (∀ s ∈ [(1 : ℚ) / 2], -1 ≤ s ∧ s < 1) ∧
    (∃ out, decodeAudioData (createBlobBytes [(1 : ℚ) / 2]) 1 = Except.ok [out] ∧
      out.length = ([(1 : ℚ) / 2]).length ∧
      ∀ k, k < ([(1 : ℚ) / 2]).length →
        |([(1 : ℚ) / 2]).getD k 0 - out.getD k 0| ≤ 1 / 32768) :=
  ⟨by norm_num, codec_roundtrip [(1 : ℚ) / 2] (by norm_num)⟩

/-- Claim C6 counterexample: two one-frame buffers enqueued with no
intervening interruption, the first at clock time 0, the second at clock
time 1 after the output clock has run past the first buffer's end
(1/24000): the second buffer is scheduled at 1, not at the first
buffer's computed end time 0 + 1/24000 — a gap. -/
theorem playback_gap_counterexample :
    (runMessages initSessionState
        [({ audioData := some [0, 0] }, 0),
         ({ audioData := some [0, 0] }, 1)]).state.sources
      = [{ startTime := 0, duration := 1 / 24000 },
         { startTime := 1, duration := 1 / 24000 }] ∧
    ¬ ((1 : ℚ) = 0 + 1 / 24000) := by
  have e1 : onmessage initSessionState { audioData := some [0, 0] } 0 =
      { state :=
          { nextStartTime := 1 / 24000
            sources := [{ startTime := 0, duration := 1 / 24000 }]
            stoppedSources := [], currentInputTranscription := ""
            currentOutputTranscription := "" }
        events := [CallbackEvent.onAIStartSpeaking], thrown := none } := by
    rw [onmessage_audio _ _ _ (by decide)]
    norm_num [initSessionState]
  have e2 : onmessage
      { nextStartTime := 1 / 24000
        sources := [{ startTime := 0, duration := 1 / 24000 }]
        stoppedSources := [], currentInputTranscription := ""
        currentOutputTranscription := "" } { audioData := some [0, 0] } 1 =
      { state :=
          { nextStartTime := 1 + 1 / 24000
            sources := [{ startTime := 0, duration := 1 / 24000 },
                        { startTime := 1, duration := 1 / 24000 }]
            stoppedSources := [], currentInputTranscription := ""
            currentOutputTranscription := "" }
        events := [CallbackEvent.onAIStartSpeaking], thrown := none } := by
    rw [onmessage_audio _ _ _ (by decide)]
    have hm : max ((1 : ℚ) / 24000) 1 = 1 := max_eq_right (by norm_num)
    norm_num [hm]
  constructor
  · simp only [runMessages, e1, e2]
  · norm_num

/-- Claim C6 as amended: each enqueued buffer is scheduled at
`max nextStartTime currentTime` and `nextStartTime` then advances by the
buffer's duration; the scheduled start equals the previous buffer's
computed end time (`nextStartTime`) exactly when the output clock has
not advanced past it. -/
theorem enqueue_start_anchored (st : SessionState) (bytes : List ℕ) (now : ℚ)
    (h : bytes.length % 2 = 0) :
    (onmessage st { audioData := some bytes } now).state.sources
      = st.sources ++
        [{ startTime := max st.nextStartTime now
           duration := ((bytes.length / 2 : ℕ) : ℚ) / 24000 }] ∧
    (onmessage st { audioData := some bytes } now).state.nextStartTime
      = max st.nextStartTime now + ((bytes.length / 2 : ℕ) : ℚ) / 24000 ∧
    (now ≤ st.nextStartTime → max st.nextStartTime now = st.nextStartTime) := by
  rw [onmessage_audio st bytes now h]
  exact ⟨rfl, rfl, fun hle => max_eq_left hle⟩

/-- Witness for `enqueue_start_anchored` on the initial state with a
one-frame buffer arriving at clock time 0. -/
theorem enqueue_start_anchored_witness :
    ([0, 0] : List ℕ).length % 2 = 0 ∧
    ((onmessage initSessionState { audioData := some [0, 0] } 0).state.sources
      = initSessionState.sources ++
        [{ startTime := max initSessionState.nextStartTime 0
           duration := ((([0, 0] : List ℕ).length / 2 : ℕ) : ℚ) / 24000 }] ∧
     (onmessage initSessionState { audioData := some [0, 0] } 0).state.nextStartTime
      = max initSessionState.nextStartTime 0 +
          ((([0, 0] : List ℕ).length / 2 : ℕ) : ℚ) / 24000 ∧
     ((0 : ℚ) ≤ initSessionState.nextStartTime →
       max initSessionState.nextStartTime 0 = initSessionState.nextStartTime)) :=
  ⟨by decide, enqueue_start_anchored initSessionState [0, 0] 0 (by decide)⟩

/-- Claim C7: handling an interruption signal stops every previously
in-flight source, empties the in-flight set, resets `nextStartTime` to
0, and a subsequent enqueue at a nonnegative clock time `now2` schedules
its buffer to start at `now2` (the current output-clock time), not at
the stale pre-interruption cursor. -/
theorem interrupt_flushes (st : SessionState) (now now2 : ℚ) (bytes : List ℕ)
    (hb : bytes.length % 2 = 0) (hn : 0 ≤ now2) :
    (onmessage st { interrupted := true } now).state.sources = [] ∧
    (onmessage st { interrupted := true } now).state.stoppedSources
      = st.stoppedSources ++ st.sources ∧
    (onmessage st { interrupted := true } now).state.nextStartTime = 0 ∧
    (onmessage (onmessage st { interrupted := true } now).state
        { audioData := some bytes } now2).state.sources
      = [{ startTime := now2, duration := ((bytes.length / 2 : ℕ) : ℚ) / 24000 }] := by
  rw [onmessage_interrupted st now]
  refine ⟨rfl, rfl, rfl, ?_⟩
  rw [onmessage_audio _ _ _ hb]
  simp [max_eq_right hn]

/-- Witness for `interrupt_flushes` on a state with one in-flight source
and cursor 3, interrupted at clock time 7, with the next buffer arriving
at clock time 2. -/
theorem interrupt_flushes_witness :
    ([0, 0] : List ℕ).length % 2 = 0 ∧ (0 : ℚ) ≤ 2 ∧
    (let st : SessionState :=
      { nextStartTime := 3, sources := [{ startTime := 0, duration := 1 }]
        stoppedSources := [], currentInputTranscription := "Hi"
        currentOutputTranscription := "Hello" }
     (onmessage st { interrupted := true } 7).state.sources = [] ∧
     (onmessage st { interrupted := true } 7).state.stoppedSources
       = st.stoppedSources ++ st.sources ∧
     (onmessage st { interrupted := true } 7).state.nextStartTime = 0 ∧
     (onmessage (onmessage st { interrupted := true } 7).state
         { audioData := some [0, 0] } 2).state.sources
       = [{ startTime := 2
            duration := ((([0, 0] : List ℕ).length / 2 : ℕ) : ℚ) / 24000 }]) :=
  ⟨by decide, by norm_num,
   interrupt_flushes _ 7 2 [0, 0] (by decide) (by norm_num)⟩

/-- Claim C8 counterexample: after the first audio fragment of a burst
one source is in flight, yet processing a second fragment of the same
burst yields a second `onAIStartSpeaking` invocation — two invocations
in total, not one on the first fragment only. -/
theorem onAIStartSpeaking_every_fragment_counterexample :
    (runMessages initSessionState
        [({ audioData := some [0, 0] }, 0)]).state.sources.length = 1 ∧
    (runMessages initSessionState
        [({ audioData := some [0, 0] }, 0),
         ({ audioData := some [0, 0] }, 0)]).events.count
      CallbackEvent.onAIStartSpeaking = 2 := by
  refine ⟨by decide, by decide⟩

/-- Claim C8 as amended: `onAIStartSpeaking` is invoked exactly once for
every output audio fragment, including a fragment arriving while coach
audio is already in flight (a non-first fragment of a burst). -/
theorem onAIStartSpeaking_not_only_first (st : SessionState) (bytes : List ℕ)
    (now : ℚ) (hburst : st.sources ≠ []) :
    (onmessage st { audioData := some bytes } now).events.count
      CallbackEvent.onAIStartSpeaking = 1 := by
  rcases hd : decodeAudioData bytes 1 with e | ch
  · simp [onmessage, hd]
  · simp [onmessage, hd, onmessageTail]

/-- Witness for `onAIStartSpeaking_not_only_first` on a state with one
source already in flight. -/
theorem onAIStartSpeaking_not_only_first_witness :
    ({ nextStartTime := 0, sources := [{ startTime := 0, duration := 1 }]
       stoppedSources := [], currentInputTranscription := ""
       currentOutputTranscription := "" } : SessionState).sources ≠ [] ∧
    (onmessage
        { nextStartTime := 0, sources := [{ startTime := 0, duration := 1 }]
          stoppedSources := [], currentInputTranscription := ""
          currentOutputTranscription := "" }
        { audioData := some [0, 0] } 0).events.count
      CallbackEvent.onAIStartSpeaking = 1 :=
  ⟨by decide, onAIStartSpeaking_not_only_first _ [0, 0] 0 (by decide)⟩

/-- Claim C9 counterexample: a 3-byte payload with channel count 1 (byte
length not a multiple of channelCount × 2) makes the decoder fail with a
`RangeError` — it does not truncate the trailing partial sample and
produce a buffer. -/
theorem decodeAudioData_odd_length_counterexample :
    decodeAudioData [0, 0, 0] 1
      = Except.error "RangeError: byte length of Int16Array should be a multiple of 2" ∧
    ¬ ∃ channels, decodeAudioData [0, 0, 0] 1 = Except.ok channels := by
  constructor
  · rfl
  · rintro ⟨channels, hc⟩
    rw [show decodeAudioData [0, 0, 0] 1
        = Except.error "RangeError: byte length of Int16Array should be a multiple of 2"
      from rfl] at hc
    exact absurd hc (by simp)

/-- Claim C9 as amended: an odd byte length raises a `RangeError`; for an
even byte length the decoder interprets the bytes as 16-bit signed
little-endian samples, divides each by 32768, de-interleaves by channel,
and produces frameCount = totalSamples / channelCount frames per channel
(truncating a trailing partial frame when the sample count is not a
multiple of the channel count). -/
theorem decodeAudioData_spec (bytes : List ℕ) (numChannels : ℕ)
    (hc : 0 < numChannels) :
    (bytes.length % 2 ≠ 0 →
      decodeAudioData bytes numChannels
        = Except.error "RangeError: byte length of Int16Array should be a multiple of 2") ∧
    (bytes.length % 2 = 0 →
      ∃ channels, decodeAudioData bytes numChannels = Except.ok channels ∧
        channels.length = numChannels ∧
        (∀ ch ∈ channels, ch.length = bytes.length / 2 / numChannels) ∧
        (∀ c, c < numChannels → ∀ i, i < bytes.length / 2 / numChannels →
          (channels.getD c []).getD i 0
            = ((toInt16 (bytes.getD (2 * (i * numChannels + c)) 0)
                (bytes.getD (2 * (i * numChannels + c) + 1) 0) : ℤ) : ℚ) / 32768)) := by
  constructor
  · intro hodd
    unfold decodeAudioData
    rw [if_neg hodd]
  · intro heven
    refine ⟨(List.range numChannels).map (fun channel =>
        (List.range ((leBytesToInt16s bytes).length / numChannels)).map fun i =>
          (((leBytesToInt16s bytes).getD (i * numChannels + channel) 0 : ℤ) : ℚ) / 32768),
      ?_, by simp, ?_, ?_⟩
    · unfold decodeAudioData
      rw [if_pos heven]
    · intro ch hch
      rw [List.mem_map] at hch
      obtain ⟨c, hc2, rfl⟩ := hch
      simp [leBytesToInt16s_length]
    · intro c hcn i hi
      have hfc : i < (leBytesToInt16s bytes).length / numChannels := by
        rw [leBytesToInt16s_length]
        exact hi
      rw [getD_range_map _ _ _ _ hcn, getD_range_map _ _ _ _ hfc]
      have hidx : i * numChannels + c < bytes.length / 2 := by
        have h1 : i + 1 ≤ bytes.length / 2 / numChannels := hi
        have h2 : (i + 1) * numChannels ≤ (bytes.length / 2 / numChannels) * numChannels :=
          Nat.mul_le_mul_right _ h1
        have h3 : (bytes.length / 2 / numChannels) * numChannels ≤ bytes.length / 2 :=
          Nat.div_mul_le_self _ _
        have h4 : (i + 1) * numChannels = i * numChannels + numChannels := by ring
        omega
      rw [leBytesToInt16s_getD bytes _ hidx]

/-- Witness for `decodeAudioData_spec` on a stereo payload of three
samples (six bytes), whose frame count truncates to one. -/
theorem decodeAudioData_spec_witness :
    0 < 2 ∧
    ((([1, 0, 2, 0, 3, 0] : List ℕ).length % 2 ≠ 0 →
      decodeAudioData [1, 0, 2, 0, 3, 0] 2
        = Except.error "RangeError: byte length of Int16Array should be a multiple of 2") ∧
     (([1, 0, 2, 0, 3, 0] : List ℕ).length % 2 = 0 →
      ∃ channels, decodeAudioData [1, 0, 2, 0, 3, 0] 2 = Except.ok channels ∧
        channels.length = 2 ∧
        (∀ ch ∈ channels,
          ch.length = ([1, 0, 2, 0, 3, 0] : List ℕ).length / 2 / 2) ∧
        (∀ c, c < 2 → ∀ i, i < ([1, 0, 2, 0, 3, 0] : List ℕ).length / 2 / 2 →
          (channels.getD c []).getD i 0
            = ((toInt16 (([1, 0, 2, 0, 3, 0] : List ℕ).getD (2 * (i * 2 + c)) 0)
                (([1, 0, 2, 0, 3, 0] : List ℕ).getD (2 * (i * 2 + c) + 1) 0) : ℤ) : ℚ)
                / 32768))) :=
  ⟨by decide, decodeAudioData_spec [1, 0, 2, 0, 3, 0] 2 (by decide)⟩

/-- Claim C10: when an interruption signal arrives while the in-flight
source set is already empty, the handler still invokes the caller's
`onAIStopSpeaking` callback (and no `onAIStartSpeaking`), so the caller
can observe a stop notification with no preceding start for the same
burst; no source is stopped, the set stays empty and the cursor is
reset. -/
theorem interrupt_on_empty_still_stops (st : SessionState) (now : ℚ)
    (h : st.sources = []) :
    (onmessage st { interrupted := true } now).events
      = [CallbackEvent.onAIStopSpeaking] ∧
    (onmessage st { interrupted := true } now).events.count
      CallbackEvent.onAIStartSpeaking = 0 ∧
    (onmessage st { interrupted := true } now).state.stoppedSources
      = st.stoppedSources ∧
    (onmessage st { interrupted := true } now).state.sources = [] ∧
    (onmessage st { interrupted := true } now).state.nextStartTime = 0 := by
  rw [onmessage_interrupted st now]
  simp [h]

/-- Witness for `interrupt_on_empty_still_stops` on the initial state,
whose in-flight set is empty. -/
theorem interrupt_on_empty_still_stops_witness :
    initSessionState.sources = [] ∧
    ((onmessage initSessionState { interrupted := true } 5).events
      = [CallbackEvent.onAIStopSpeaking] ∧
     (onmessage initSessionState { interrupted := true } 5).events.count
      CallbackEvent.onAIStartSpeaking = 0 ∧
     (onmessage initSessionState { interrupted := true } 5).state.stoppedSources
      = initSessionState.stoppedSources ∧
     (onmessage initSessionState { interrupted := true } 5).state.sources = [] ∧
     (onmessage initSessionState { interrupted := true } 5).state.nextStartTime = 0) :=
  ⟨by decide, interrupt_on_empty_still_stops initSessionState 5 (by decide)⟩

end GeminiService
